import Mathlib

/-!
Verification development for the email-domain-classifier core
(`email_classifier/classifier.py` and `email_classifier/llm/agent.py`).

Python floats are modelled by exact rationals (`ℚ`), dictionaries keyed by
domain name by association lists in insertion order, and Python's
exception-based control flow by `Except`.  The text-matching layer
(regular expressions, substring counting inside
`KeywordTaxonomyClassifier._score_domain`) is kept abstract as a per-domain
raw-score function, exactly the interface through which `classify`
consumes it; every claim below quantifies over, or evaluates, the raw
score vectors that layer can produce.
-/

namespace EmailClassifier

/-- Record `ClassificationResult` from `classifier.py` (the opaque `details`
trace map is omitted; no claim mentions it). -/
structure ClassificationResult where
  domain : Option String
  confidence : ℚ
  scores : List (String × ℚ)
  method : String
  deriving Repr, DecidableEq

/-- Python's `max(iterable, key=...)` keeps the current candidate and
replaces it only on a strictly greater key, so the FIRST maximal element
of the iteration wins.  `pyMaxAux best l` folds that loop. -/
def pyMaxAux (best : String × ℚ) : List (String × ℚ) → String × ℚ
  | [] => best
  | p :: ps => pyMaxAux (if best.2 < p.2 then p else best) ps

/-- Python `max(scores, key=lambda k: scores[k])` over a dict rendered as an
association list in insertion order; `none` on the empty dict
(`if scores:` guard in the source). -/
def pyMax : List (String × ℚ) → Option (String × ℚ)
  | [] => none
  | x :: xs => some (pyMaxAux x xs)

/-- Score normalization shared by both heuristic scorers
(`classifier.py` lines 187-192 and 366-371): divide by the sum when it
is positive, otherwise return the raw dict unchanged. -/
def normalizeScores (scores : List (String × ℚ)) : List (String × ℚ) :=
  let total := (scores.map Prod.snd).sum
  if 0 < total then scores.map (fun p => (p.1, p.2 / total)) else scores

/-- Dict lookup `d.get(k, 0.0)`. -/
def getScore (scores : List (String × ℚ)) (k : String) : ℚ :=
  (scores.lookup k).getD 0

/-- The best-match decision shared by both heuristic scorers
(`classifier.py` lines 194-213 / 373-392): argmax over the RAW scores,
confidence read from the normalized dict, and the null-reject when the
normalized confidence or the raw best score is below the floor. -/
def classifyFromScores (minConf minRaw : ℚ) (mthd : String)
    (scores : List (String × ℚ)) : ClassificationResult :=
  match pyMax scores with
  | none => ⟨none, 0, normalizeScores scores, mthd⟩
  | some (bestDomain, bestScore) =>
    if getScore (normalizeScores scores) bestDomain < minConf
        ∨ bestScore < minRaw then
      ⟨none, 0, normalizeScores scores, mthd⟩
    else
      ⟨some bestDomain, getScore (normalizeScores scores) bestDomain,
        normalizeScores scores, mthd⟩

/-- The `scores[domain_name] = self._score_domain(...)` loop: the raw score
dict, built in taxonomy insertion order. -/
def rawScores (domains : List String) (scoreFn : String → ℚ) :
    List (String × ℚ) :=
  domains.map (fun d => (d, scoreFn d))

/-- Embeds `KeywordTaxonomyClassifier.classify` (lines 177-213), abstracted over
the `_score_domain` raw-score function: thresholds 0.05 / 1.5. -/
def keywordClassify (domains : List String) (scoreFn : String → ℚ) :
    ClassificationResult :=
  classifyFromScores 0.05 1.5 "keyword_taxonomy" (rawScores domains scoreFn)

/-- Embeds `StructuralTemplateClassifier.classify` (lines 353-392), abstracted
over the `_score_template_match` raw-score function: thresholds
0.04 / 2.0. -/
def structuralClassify (domains : List String) (scoreFn : String → ℚ) :
    ClassificationResult :=
  classifyFromScores 0.04 2.0 "structural_template" (rawScores domains scoreFn)

/-- Sender-structure features produced by
`StructuralTemplateClassifier._analyze_sender_structure`. -/
structure SenderFeatures where
  is_noreply : Bool
  has_department : Bool
  domain_type : String
  deriving Repr, DecidableEq

/-- Structural features produced by
`StructuralTemplateClassifier._extract_features`. -/
structure StructuralFeatures where
  body_length : ℕ
  has_greeting : Bool
  has_signature : Bool
  has_disclaimer : Bool
  paragraph_count : ℕ
  formality : String
  has_url : Bool
  sender : SenderFeatures
  deriving Repr, DecidableEq

/-- The template-expectation part of `DomainProfile` (`domains.py`);
the keyword/pattern fields feed only the abstracted `_score_domain`. -/
structure DomainProfile where
  name : String
  typical_body_length : ℕ × ℕ
  has_greeting : Bool
  has_signature : Bool
  has_disclaimer : Bool
  url_expected : Bool
  formality_level : String
  typical_paragraph_count : ℕ × ℕ
  deriving Repr, DecidableEq

/-- Body-length component of `_score_template_match` (lines 485-496),
weight 2.0: full on `[min, max]`, zero outside `[0.5*min, 2*max]`,
half weight otherwise. -/
def scoreBodyLength (bodyLen minLen maxLen : ℕ) : ℚ :=
  if minLen ≤ bodyLen ∧ bodyLen ≤ maxLen then 2.0
  else if (bodyLen : ℚ) < (minLen : ℚ) * 0.5 ∨ (bodyLen : ℚ) > (maxLen : ℚ) * 2
    then 0
  else 2.0 * 0.5

/-- Greeting component (lines 498-503), weight 1.5: full iff the feature
equals the profile expectation. -/
def scoreGreeting (featHas profHas : Bool) : ℚ :=
  if featHas = profHas then 1.5 else 0

/-- Signature component (lines 505-510), weight 1.5. -/
def scoreSignature (featHas profHas : Bool) : ℚ :=
  if featHas = profHas then 1.5 else 0

/-- Disclaimer component (lines 512-520), weight 2.0, exactly as coded:
full weight on equality; the second branch
(`elif profile.has_disclaimer and features["has_disclaimer"]`) repeats
the both-true case already covered by equality and is unreachable;
everything else scores zero. -/
def scoreDisclaimer (featHas profHas : Bool) : ℚ :=
  if featHas = profHas then 2.0
  else if profHas ∧ featHas then 2.0
  else 0

/-- URL component (lines 522-528), weight 2.5: full on match, otherwise
30% partial credit. -/
def scoreUrl (featHas profExpected : Bool) : ℚ :=
  if featHas = profExpected then 2.5 else 2.5 * 0.3

/-- Formality component (lines 530-541), weight 2.0: full on exact
match, half if either side is "semi-formal", else zero. -/
def scoreFormality (feat prof : String) : ℚ :=
  if feat = prof then 2.0
  else if feat = "semi-formal" ∨ prof = "semi-formal" then 2.0 * 0.5
  else 0

/-- Paragraph-count component (lines 543-554), weight 1.5, same tiering
as body length. -/
def scoreParagraphs (paraCount minPara maxPara : ℕ) : ℚ :=
  if minPara ≤ paraCount ∧ paraCount ≤ maxPara then 1.5
  else if (paraCount : ℚ) < (minPara : ℚ) * 0.5 ∨
      (paraCount : ℚ) > (maxPara : ℚ) * 2
    then 0
  else 1.5 * 0.5

/-- Sender-structure component (lines 556-569), weight 2.5: full when
the sender's domain type equals the profile name, half for a noreply
sender against technology/retail/logistics, else zero. -/
def scoreSender (s : SenderFeatures) (profName : String) : ℚ :=
  if s.domain_type = profName then 2.5
  else if s.is_noreply ∧
      (profName = "technology" ∨ profName = "retail" ∨ profName = "logistics")
    then 2.5 * 0.5
  else 0

/-- Embeds `StructuralTemplateClassifier._score_template_match`
(lines 478-571): the per-domain raw score is the sum of the eight
weighted components, in source order. -/
def scoreTemplateMatch (f : StructuralFeatures) (p : DomainProfile) : ℚ :=
  scoreBodyLength f.body_length p.typical_body_length.1 p.typical_body_length.2
    + scoreGreeting f.has_greeting p.has_greeting
    + scoreSignature f.has_signature p.has_signature
    + scoreDisclaimer f.has_disclaimer p.has_disclaimer
    + scoreUrl f.has_url p.url_expected
    + scoreFormality f.formality p.formality_level
    + scoreParagraphs f.paragraph_count p.typical_paragraph_count.1
        p.typical_paragraph_count.2
    + scoreSender f.sender p.name

/-- Record `HybridWorkflowStats` (lines 771-803). -/
structure HybridWorkflowStats where
  llm_call_count : ℕ
  llm_total_time_ms : ℚ
  classic_agreement_count : ℕ
  total_processed : ℕ
  deriving Repr, DecidableEq

/-- Fresh statistics, as on arbitrator construction or `reset_stats`. -/
def initStats : HybridWorkflowStats := ⟨0, 0, 0, 0⟩

/-- The `classifiers_agree` check (lines 926-930): both domains non-null and
equal. -/
def classifiersAgree (r1 r2 : ClassificationResult) : Bool :=
  r1.domain.isSome && r2.domain.isSome && (r1.domain == r2.domain)

/-- Embeds `HybridClassifier._fallback_classification` (lines 1037-1067):
0.6/0.4 keyword/structural blend over the union of the two score dicts,
argmax, accepted iff `>= 0.15`, else `"unsure"`.  `unionOrder` is the
iteration order of the Python set
`set(result1.scores.keys()) | set(result2.scores.keys())`, which is
implementation-defined (hash-based), hence an explicit argument. -/
def fallbackClassification (unionOrder : List String)
    (r1 r2 : ClassificationResult) : String :=
  let combined := unionOrder.map
    (fun d => (d, getScore r1.scores d * 0.6 + getScore r2.scores d * 0.4))
  match pyMax combined with
  | none => "unsure"
  | some (bestDomain, bestScore) =>
    if bestScore ≥ 0.15 then bestDomain else "unsure"

/-- The combining step of `EmailClassifier.classify` with the LLM
disabled (lines 724-763): weights 0.6/0.4, `GLOBAL_THRESHOLD = 0.15`;
`unionOrder` again models the union set's iteration order. -/
def emailClassifierCombine (unionOrder : List String)
    (r1 r2 : ClassificationResult) : String :=
  let combined := unionOrder.map
    (fun d => (d, getScore r1.scores d * 0.6 + getScore r2.scores d * 0.4))
  match pyMax combined with
  | none => "unsure"
  | some (bestDomain, bestScore) =>
    if bestScore ≥ 0.15 then bestDomain else "unsure"

/-- Embeds `EmailClassifier.classify` with the LLM disabled, end to end. -/
def emailClassifierClassify (domains : List String)
    (kwFn stFn : String → ℚ) (unionOrder : List String) : String :=
  emailClassifierCombine unionOrder (keywordClassify domains kwFn)
    (structuralClassify domains stFn)

/-- One hybrid classification outcome: final label, decision path,
whether the semantic classifier was invoked, and the statistics after
the call. -/
structure HybridOutcome where
  finalDomain : String
  path : String
  llmInvoked : Bool
  stats : HybridWorkflowStats
  deriving Repr, DecidableEq

/-- Escalated branch of `HybridClassifier.classify` (lines 949-1026).
`llm` is the configured semantic classifier's outcome for this email:
`none` when no classifier is configured, `some (.ok (r, t))` for a
normal return `r` after `t` ms, `some (.error e)` when the call
raises. -/
def hybridEscalate (llm : Option (Except String (ClassificationResult × ℚ)))
    (unionOrder : List String) (r1 r2 : ClassificationResult)
    (stats1 : HybridWorkflowStats) : HybridOutcome :=
  match llm with
  | none =>
    ⟨fallbackClassification unionOrder r1 r2, "llm_assisted", false, stats1⟩
  | some (.ok (r3, elapsed)) =>
    ⟨r3.domain.getD "unsure", "llm_assisted", true,
      { stats1 with
        llm_call_count := stats1.llm_call_count + 1,
        llm_total_time_ms := stats1.llm_total_time_ms + elapsed }⟩
  | some (.error _) =>
    ⟨fallbackClassification unionOrder r1 r2, "llm_assisted", true, stats1⟩

/-- Embeds `HybridClassifier.classify` (lines 874-1035) with no workflow
logger attached: increment `total_processed` first (line 888), then on
agreement return `result1.domain` (never null in that branch, so the
`"unsure"` default is inert) on path `classic_only` with
`classic_agreement_count` incremented; otherwise escalate. -/
def hybridClassify (llm : Option (Except String (ClassificationResult × ℚ)))
    (unionOrder : List String) (r1 r2 : ClassificationResult)
    (stats : HybridWorkflowStats) : HybridOutcome :=
  let stats1 := { stats with total_processed := stats.total_processed + 1 }
  if classifiersAgree r1 r2 then
    ⟨r1.domain.getD "unsure", "classic_only", false,
      { stats1 with
        classic_agreement_count := stats1.classic_agreement_count + 1 }⟩
  else
    hybridEscalate llm unionOrder r1 r2 stats1

/-- Embeds `HybridClassifier.classify` end to end from the raw score
functions. -/
def hybridClassifyPipeline (domains : List String) (kwFn stFn : String → ℚ)
    (llm : Option (Except String (ClassificationResult × ℚ)))
    (unionOrder : List String) (stats : HybridWorkflowStats) : HybridOutcome :=
  hybridClassify llm unionOrder (keywordClassify domains kwFn)
    (structuralClassify domains stFn) stats

/-- Embeds `HybridClassifier.classify` with a workflow logger attached, with
Python's mutation-then-raise semantics made explicit: the statistics
updates performed so far survive an abort.  `logStep n` is the outcome
of the n-th `workflow_logger.log_step` call of this invocation (the
logger writes to a file and may raise).  Call sites in source order:
keyword_classify (line 896) is call 0, structural_classify (line 906)
is call 1, agreement_check is call 2, then llm_classify (escalated with
a classifier) and finally final_result (line 1030).  The pair returned
is the `Except` outcome of the call and the statistics object
afterwards. -/
def hybridClassifyE (logStep : ℕ → Except String Unit)
    (llm : Option (Except String (ClassificationResult × ℚ)))
    (unionOrder : List String) (r1 r2 : ClassificationResult)
    (stats : HybridWorkflowStats) :
    Except String (String × String) × HybridWorkflowStats :=
  let stats1 := { stats with total_processed := stats.total_processed + 1 }
  match logStep 0 with
  | .error e => (.error e, stats1)
  | .ok _ =>
  match logStep 1 with
  | .error e => (.error e, stats1)
  | .ok _ =>
  if classifiersAgree r1 r2 then
    let statsA := { stats1 with
      classic_agreement_count := stats1.classic_agreement_count + 1 }
    match logStep 2 with
    | .error e => (.error e, statsA)
    | .ok _ =>
    match logStep 3 with
    | .error e => (.error e, statsA)
    | .ok _ => (.ok (r1.domain.getD "unsure", "classic_only"), statsA)
  else
    match llm with
    | none =>
      let fd := fallbackClassification unionOrder r1 r2
      match logStep 2 with
      | .error e => (.error e, stats1)
      | .ok _ =>
      match logStep 3 with
      | .error e => (.error e, stats1)
      | .ok _ => (.ok (fd, "llm_assisted"), stats1)
    | some llmOutcome =>
      match logStep 2 with
      | .error e => (.error e, stats1)
      | .ok _ =>
      match llmOutcome with
      | .ok (r3, elapsed) =>
        let statsL := { stats1 with
          llm_call_count := stats1.llm_call_count + 1,
          llm_total_time_ms := stats1.llm_total_time_ms + elapsed }
        match logStep 3 with
        | .error e => (.error e, statsL)
        | .ok _ =>
        match logStep 4 with
        | .error e => (.error e, statsL)
        | .ok _ => (.ok (r3.domain.getD "unsure", "llm_assisted"), statsL)
      | .error _ =>
        let fd := fallbackClassification unionOrder r1 r2
        match logStep 3 with
        | .error e => (.error e, stats1)
        | .ok _ =>
        match logStep 4 with
        | .error e => (.error e, stats1)
        | .ok _ => (.ok (fd, "llm_assisted"), stats1)

namespace LLM

/-- Record `DomainClassification` from `llm/schemas.py`. -/
structure DomainClassification where
  domain : String
  confidence : ℚ
  reasoning : String
  deriving Repr, DecidableEq

/-- Record `LLMClassificationResult` from `llm/schemas.py`. -/
structure LLMResult where
  classifications : List DomainClassification
  primary_domain : String
  analysis : String
  deriving Repr, DecidableEq

/-- Embeds `LLMClassificationResult.get_highest_confidence`
(`llm/schemas.py` lines 43-51): confidence of the first classification,
0.0 when empty. -/
def getHighestConfidence (r : LLMResult) : ℚ :=
  match r.classifications with
  | [] => 0
  | c :: _ => c.confidence

/-- Embeds `LLMClassifier._normalize_domain_name` (`llm/agent.py` lines
163-198): the literal variation table, identity elsewhere. -/
def normalizeDomainName (d : String) : String :=
  if d = "human_resources" then "hr"
  else if d = "human resources" then "hr"
  else if d = "humanresources" then "hr"
  else if d = "telecom" then "telecommunications"
  else if d = "telco" then "telecommunications"
  else if d = "social" then "social_media"
  else if d = "socialmedia" then "social_media"
  else if d = "banking" then "finance"
  else if d = "financial" then "finance"
  else if d = "medical" then "healthcare"
  else if d = "health" then "healthcare"
  else if d = "gov" then "government"
  else if d = "govt" then "government"
  else if d = "shopping" then "retail"
  else if d = "ecommerce" then "retail"
  else if d = "e-commerce" then "retail"
  else if d = "shipping" then "logistics"
  else if d = "delivery" then "logistics"
  else if d = "tech" then "technology"
  else if d = "software" then "technology"
  else if d = "school" then "education"
  else if d = "university" then "education"
  else if d = "college" then "education"
  else d

/-- Models `self._valid_domains`, that is the union of the taxonomy's
domain names with the singleton "unsure"
(`llm/agent.py` line 36), parameterized by the taxonomy's domain-name
list. -/
def validDomains (knownDomains : List String) : List String :=
  knownDomains ++ ["unsure"]

/-- The filtering loop of `LLMClassifier._validate_result`
(`llm/agent.py` lines 127-139): lowercase, trim and normalize each
returned domain name, keep it only when it is a valid domain, clamping
the confidence into [0, 1]. -/
def filterValid (knownDomains : List String)
    (cls : List DomainClassification) : List DomainClassification :=
  cls.filterMap (fun c =>
    let d := normalizeDomainName c.domain.toLower.trim
    if (validDomains knownDomains).contains d then
      some ⟨d, max 0 (min 1 c.confidence), c.reasoning⟩
    else none)

/-- The synthetic classification substituted when filtering leaves
nothing (`llm/agent.py` lines 142-149). -/
def syntheticUnsure : DomainClassification :=
  ⟨"unsure", 0.3, "LLM returned no valid domain classifications"⟩

/-- Stable insertion of `c` into a descending-by-confidence list,
placing it after every element with confidence `>=` its own. -/
def insertByConf (c : DomainClassification) :
    List DomainClassification → List DomainClassification
  | [] => [c]
  | x :: xs =>
    if c.confidence ≤ x.confidence then x :: insertByConf c xs
    else c :: x :: xs

/-- Embeds `valid_classifications.sort(key=lambda c: c.confidence,
reverse=True)` (`llm/agent.py` line 152): Python's stable descending
sort, rendered as a stable insertion sort (stable sorting by a total
key is extensionally unique, so this computes the same list). -/
def sortByConfDesc (l : List DomainClassification) :
    List DomainClassification :=
  l.foldl (fun acc c => insertByConf c acc) []

/-- Embeds `LLMClassifier._validate_result` (`llm/agent.py` lines 117-161). -/
def validateResult (knownDomains : List String) (r : LLMResult) :
    LLMResult :=
  let valid := filterValid knownDomains r.classifications
  let valid := if valid.isEmpty then [syntheticUnsure] else valid
  let sorted := sortByConfDesc valid
  { classifications := sorted,
    primary_domain := (sorted.headD syntheticUnsure).domain,
    analysis := r.analysis }

/-- Embeds `LLMClassifier._convert_to_classification_result`
(`llm/agent.py` lines 200-248): zero scores over every known domain,
overwritten by the returned classifications whose domain is a known
key; primary domain `"unsure"` collapses to a null domain with
confidence 0. -/
def convertToClassificationResult (knownDomains : List String)
    (r : LLMResult) : ClassificationResult :=
  let scores0 := knownDomains.map (fun d => (d, (0 : ℚ)))
  let scores := r.classifications.foldl
    (fun acc c => acc.map (fun p => if p.1 = c.domain then (p.1, c.confidence) else p))
    scores0
  if r.primary_domain = "unsure" then
    ⟨none, 0, scores, "llm_agent"⟩
  else
    ⟨some r.primary_domain, getHighestConfidence r, scores, "llm_agent"⟩

/-- Embeds `LLMClassifier._create_fallback_result` (`llm/agent.py` lines
250-270): null domain, zero confidence, all-zero scores over the known
domains, method `"llm_agent"`. -/
def createFallbackResult (knownDomains : List String) :
    ClassificationResult :=
  ⟨none, 0, knownDomains.map (fun d => (d, (0 : ℚ))), "llm_agent"⟩

/-- Embeds `LLMClassifier._invoke_llm` (`llm/agent.py` lines 75-115):
`retry_count + 1` attempts in total; the first successful raw response
is validated and returned, and the last attempt's exception is
re-raised once retries are exhausted.  `attempt i` is the outcome of
the i-th `structured_llm.invoke` call. -/
def invokeLLM (knownDomains : List String) :
    ℕ → (ℕ → Except String LLMResult) → Except String LLMResult
  | retryCount, attempt =>
    match attempt 0 with
    | .ok r => .ok (validateResult knownDomains r)
    | .error e =>
      match retryCount with
      | 0 => .error e
      | n + 1 => invokeLLM knownDomains n (fun i => attempt (i + 1))

/-- Embeds `LLMClassifier.classify` (`llm/agent.py` lines 59-73): a total
function — every exception from `_invoke_llm` is caught and converted
into the fallback result, so the caller never sees a raise. -/
def llmClassify (knownDomains : List String) (retryCount : ℕ)
    (attempt : ℕ → Except String LLMResult) : ClassificationResult :=
  match invokeLLM knownDomains retryCount attempt with
  | .ok r => convertToClassificationResult knownDomains r
  | .error _ => createFallbackResult knownDomains

end LLM

/-! ### Helper lemmas -/

theorem pyMaxAux_mem (best : String × ℚ) (l : List (String × ℚ)) :
    pyMaxAux best l = best ∨ pyMaxAux best l ∈ l := by
  induction l generalizing best with
  | nil => exact Or.inl rfl
  | cons p ps ih =>
    simp only [pyMaxAux]
    rcases ih (if best.2 < p.2 then p else best) with h | h
    · rw [h]
      split
      · exact Or.inr (List.mem_cons_self _ _)
      · exact Or.inl rfl
    · exact Or.inr (List.mem_cons_of_mem _ h)

theorem pyMax_mem {l : List (String × ℚ)} {p : String × ℚ}
    (h : pyMax l = some p) : p ∈ l := by
  cases l with
  | nil => simp [pyMax] at h
  | cons x xs =>
    simp only [pyMax, Option.some.injEq] at h
    rcases pyMaxAux_mem x xs with h' | h'
    · rw [← h, h']
      exact List.mem_cons_self _ _
    · rw [← h]
      exact List.mem_cons_of_mem _ h'

theorem pyMaxAux_of_le (best : String × ℚ) (l : List (String × ℚ))
    (h : ∀ p ∈ l, p.2 ≤ best.2) : pyMaxAux best l = best := by
  induction l with
  | nil => rfl
  | cons p ps ih =>
    have hp : p.2 ≤ best.2 := h p (List.mem_cons_self _ _)
    simp only [pyMaxAux, if_neg (not_lt.mpr hp)]
    exact ih fun q hq => h q (List.mem_cons_of_mem _ hq)

theorem pyMaxAux_append (best : String × ℚ) (l₁ : List (String × ℚ))
    (d : String) (s : ℚ) (l₂ : List (String × ℚ)) (hb : best.2 < s)
    (h₁ : ∀ p ∈ l₁, p.2 < s) (h₂ : ∀ p ∈ l₂, p.2 ≤ s) :
    pyMaxAux best (l₁ ++ (d, s) :: l₂) = (d, s) := by
  induction l₁ generalizing best with
  | nil =>
    simp only [List.nil_append, pyMaxAux, if_pos hb]
    exact pyMaxAux_of_le (d, s) l₂ h₂
  | cons q l₁ ih =>
    simp only [List.cons_append, pyMaxAux]
    have hq : q.2 < s := h₁ q (List.mem_cons_self _ _)
    have h₁' : ∀ p ∈ l₁, p.2 < s := fun p hp => h₁ p (List.mem_cons_of_mem _ hp)
    split
    · exact ih q hq h₁'
    · exact ih best hb h₁'

/-- Python `max(d, key=lambda k: d[k])` returns the first entry of the
iteration order attaining the maximal score: every earlier entry is
strictly smaller and later ties lose. -/
theorem pyMax_first (l₁ : List (String × ℚ)) (d : String) (s : ℚ)
    (l₂ : List (String × ℚ)) (h₁ : ∀ p ∈ l₁, p.2 < s)
    (h₂ : ∀ p ∈ l₂, p.2 ≤ s) :
    pyMax (l₁ ++ (d, s) :: l₂) = some (d, s) := by
  cases l₁ with
  | nil =>
    simp only [List.nil_append, pyMax, Option.some.injEq]
    exact pyMaxAux_of_le (d, s) l₂ h₂
  | cons x xs =>
    simp only [List.cons_append, pyMax, Option.some.injEq]
    exact pyMaxAux_append x xs d s l₂ (h₁ x (List.mem_cons_self _ _))
      (fun p hp => h₁ p (List.mem_cons_of_mem _ hp)) h₂

theorem sum_map_div (l : List (String × ℚ)) (t : ℚ) :
    ((l.map (fun p => (p.1, p.2 / t))).map Prod.snd).sum
      = (l.map Prod.snd).sum / t := by
  induction l with
  | nil => simp
  | cons p ps ih =>
    simp only [List.map_cons, List.sum_cons, ih, add_div]

theorem normalizeScores_sum (l : List (String × ℚ))
    (h : 0 < (l.map Prod.snd).sum) :
    ((normalizeScores l).map Prod.snd).sum = 1 := by
  unfold normalizeScores
  rw [if_pos h, sum_map_div]
  exact div_self (ne_of_gt h)

theorem normalizeScores_zero (l : List (String × ℚ))
    (h : ∀ p ∈ l, p.2 = 0) : ∀ p ∈ normalizeScores l, p.2 = 0 := by
  have hsum : (l.map Prod.snd).sum = 0 :=
    List.sum_eq_zero fun x hx => by
      rcases List.mem_map.mp hx with ⟨p, hp, rfl⟩
      exact h p hp
  unfold normalizeScores
  rw [hsum, if_neg (lt_irrefl 0)]
  exact h

theorem classifyFromScores_scores (minConf minRaw : ℚ) (mthd : String)
    (scores : List (String × ℚ)) :
    (classifyFromScores minConf minRaw mthd scores).scores
      = normalizeScores scores := by
  unfold classifyFromScores
  cases pyMax scores with
  | none => rfl
  | some p =>
    cases p with
    | mk d s => dsimp only; split <;> rfl

theorem rawScores_mem {domains : List String} {scoreFn : String → ℚ}
    {p : String × ℚ} (h : p ∈ rawScores domains scoreFn) :
    p.2 = scoreFn p.1 := by
  rcases List.mem_map.mp h with ⟨d, _, rfl⟩
  rfl

theorem classifyFromScores_domain_spec (minConf minRaw : ℚ) (mthd : String)
    (scores : List (String × ℚ)) (d : String)
    (h : (classifyFromScores minConf minRaw mthd scores).domain = some d) :
    minConf ≤ (classifyFromScores minConf minRaw mthd scores).confidence
      ∧ ∃ s, (d, s) ∈ scores ∧ minRaw ≤ s := by
  unfold classifyFromScores at h ⊢
  rcases hpm : pyMax scores with _ | ⟨bd, bs⟩ <;> rw [hpm] at h <;>
    dsimp only at h ⊢
  · exact absurd h (by simp)
  · by_cases hif : getScore (normalizeScores scores) bd < minConf ∨ bs < minRaw
    · rw [if_pos hif] at h
      exact absurd h (by simp)
    · rw [if_neg hif] at h ⊢
      push_neg at hif
      cases h
      exact ⟨hif.1, bs, pyMax_mem hpm, hif.2⟩

theorem classifyFromScores_none_conf (minConf minRaw : ℚ) (mthd : String)
    (scores : List (String × ℚ))
    (h : (classifyFromScores minConf minRaw mthd scores).domain = none) :
    (classifyFromScores minConf minRaw mthd scores).confidence = 0 := by
  unfold classifyFromScores at h ⊢
  rcases hpm : pyMax scores with _ | ⟨bd, bs⟩
  · rfl
  · rw [hpm] at h
    dsimp only at h ⊢
    by_cases hif : getScore (normalizeScores scores) bd < minConf ∨ bs < minRaw
    · rw [if_pos hif]
    · rw [if_neg hif] at h
      exact absurd h (by simp)

/-! ### Claims -/

/-- C1: when both heuristic scorers return the same non-null domain,
`HybridClassifier.classify` returns that domain with path
`classic_only`, increments `classic_agreement_count` (and
`total_processed`) by exactly one, leaves the LLM counters untouched,
and never invokes the semantic classifier. -/
theorem claim1_agreement_classic_only
    (llm : Option (Except String (ClassificationResult × ℚ)))
    (unionOrder : List String) (r1 r2 : ClassificationResult)
    (stats : HybridWorkflowStats) (d : String)
    (h1 : r1.domain = some d) (h2 : r2.domain = some d) :
    hybridClassify llm unionOrder r1 r2 stats =
      ⟨d, "classic_only", false,
        ⟨stats.llm_call_count, stats.llm_total_time_ms,
         stats.classic_agreement_count + 1, stats.total_processed + 1⟩⟩ := by
  have hagree : classifiersAgree r1 r2 = true := by
    simp [classifiersAgree, h1, h2]
  simp only [hybridClassify, hagree, if_true, h1, Option.getD_some]

/-- C1 witness. -/
theorem claim1_agreement_classic_only_witness :
    hybridClassify none ["a"]
      ⟨some "a", 1, [("a", 1)], "keyword_taxonomy"⟩
      ⟨some "a", 1, [("a", 1)], "structural_template"⟩ initStats =
      ⟨"a", "classic_only", false, ⟨0, 0, 1, 1⟩⟩ :=
  claim1_agreement_classic_only none ["a"] _ _ initStats "a" rfl rfl

/-- C2: on disagreement with a configured semantic classifier whose
call raises, `HybridClassifier.classify` returns the 0.6/0.4
keyword/structural fallback blend (argmax, accepted iff the combined
score is at least 0.15, else "unsure" — that is what
`fallbackClassification` computes), on path `llm_assisted`, and the
`llm_call_count` / `llm_total_time_ms` counters are unchanged. -/
theorem claim2_llm_exception_fallback (unionOrder : List String)
    (r1 r2 : ClassificationResult) (stats : HybridWorkflowStats)
    (e : String) (hdis : classifiersAgree r1 r2 = false) :
    hybridClassify (some (.error e)) unionOrder r1 r2 stats =
      ⟨fallbackClassification unionOrder r1 r2, "llm_assisted", true,
        ⟨stats.llm_call_count, stats.llm_total_time_ms,
         stats.classic_agreement_count, stats.total_processed + 1⟩⟩ := by
  simp only [hybridClassify, hdis, Bool.false_eq_true, if_false, hybridEscalate]

/-- C2 witness: the keyword scorer says "a", the structural scorer
abstains, the LLM raises. -/
theorem claim2_llm_exception_fallback_witness :
    hybridClassify (some (.error "timeout")) ["a"]
      ⟨some "a", 1, [("a", 1)], "keyword_taxonomy"⟩
      ⟨none, 0, [("a", 0)], "structural_template"⟩ initStats =
      ⟨fallbackClassification ["a"]
          ⟨some "a", 1, [("a", 1)], "keyword_taxonomy"⟩
          ⟨none, 0, [("a", 0)], "structural_template"⟩,
        "llm_assisted", true, ⟨0, 0, 0, 1⟩⟩ :=
  claim2_llm_exception_fallback ["a"] _ _ initStats "timeout" rfl

/-- C5: the keyword scorer returns a non-null domain only when that
best domain's normalized confidence is at least 0.05 and its raw
pre-normalization score at least 1.5; the structural scorer only at
confidence at least 0.04 and raw score at least 2.0; whenever the
returned domain is null the confidence is 0. -/
theorem claim5_threshold_invariant (domains : List String)
    (kwFn stFn : String → ℚ) :
    (∀ d, (keywordClassify domains kwFn).domain = some d →
      0.05 ≤ (keywordClassify domains kwFn).confidence ∧ 1.5 ≤ kwFn d)
    ∧ ((keywordClassify domains kwFn).domain = none →
      (keywordClassify domains kwFn).confidence = 0)
    ∧ (∀ d, (structuralClassify domains stFn).domain = some d →
      0.04 ≤ (structuralClassify domains stFn).confidence ∧ 2.0 ≤ stFn d)
    ∧ ((structuralClassify domains stFn).domain = none →
      (structuralClassify domains stFn).confidence = 0) := by
  refine ⟨fun d h => ?_, fun h => ?_, fun d h => ?_, fun h => ?_⟩
  · rcases classifyFromScores_domain_spec _ _ _ _ _ h with ⟨hc, s, hmem, hs⟩
    exact ⟨hc, le_trans hs (le_of_eq (rawScores_mem hmem))⟩
  · exact classifyFromScores_none_conf _ _ _ _ h
  · rcases classifyFromScores_domain_spec _ _ _ _ _ h with ⟨hc, s, hmem, hs⟩
    exact ⟨hc, le_trans hs (le_of_eq (rawScores_mem hmem))⟩
  · exact classifyFromScores_none_conf _ _ _ _ h

/-- C5 witness: on a one-domain taxonomy scoring 2 / 4, both scorers
return that domain and the thresholds are indeed met. -/
theorem claim5_threshold_invariant_witness :
    (0.05 ≤ (keywordClassify ["a"] (fun _ => 2)).confidence
      ∧ (1.5 : ℚ) ≤ (fun _ => (2 : ℚ)) "a")
    ∧ (0.04 ≤ (structuralClassify ["a"] (fun _ => 4)).confidence
      ∧ (2.0 : ℚ) ≤ (fun _ => (4 : ℚ)) "a") :=
  ⟨(claim5_threshold_invariant ["a"] (fun _ => 2) (fun _ => 4)).1 "a"
      (by norm_num [keywordClassify, classifyFromScores, rawScores,
        normalizeScores, pyMax, pyMaxAux, getScore, List.lookup]),
    (claim5_threshold_invariant ["a"] (fun _ => 2) (fun _ => 4)).2.2.1 "a"
      (by norm_num [structuralClassify, classifyFromScores, rawScores,
        normalizeScores, pyMax, pyMaxAux, getScore, List.lookup])⟩

/-- C6: for either heuristic scorer, if the raw per-domain scores have
positive sum, the normalized score vector in the returned result sums
to exactly 1 (so in particular within the 1e-6 tolerance); if every raw
score is zero, every returned score is zero. -/
theorem claim6_normalization_invariant (domains : List String)
    (kwFn stFn : String → ℚ) :
    (0 < ((rawScores domains kwFn).map Prod.snd).sum →
      ((keywordClassify domains kwFn).scores.map Prod.snd).sum = 1)
    ∧ ((∀ p ∈ rawScores domains kwFn, p.2 = 0) →
      ∀ p ∈ (keywordClassify domains kwFn).scores, p.2 = 0)
    ∧ (0 < ((rawScores domains stFn).map Prod.snd).sum →
      ((structuralClassify domains stFn).scores.map Prod.snd).sum = 1)
    ∧ ((∀ p ∈ rawScores domains stFn, p.2 = 0) →
      ∀ p ∈ (structuralClassify domains stFn).scores, p.2 = 0) := by
  refine ⟨fun h => ?_, fun h => ?_, fun h => ?_, fun h => ?_⟩ <;>
    simp only [keywordClassify, structuralClassify, classifyFromScores_scores]
  · exact normalizeScores_sum _ h
  · exact normalizeScores_zero _ h
  · exact normalizeScores_sum _ h
  · exact normalizeScores_zero _ h

/-- C6 witness: a two-domain raw vector with positive sum normalizes to
sum exactly 1, and the all-zero vector stays all-zero. -/
theorem claim6_normalization_invariant_witness :
    ((keywordClassify ["a", "b"] (fun _ => 2)).scores.map Prod.snd).sum = 1
    ∧ ∀ p ∈ (structuralClassify ["a", "b"] (fun _ => 0)).scores, p.2 = 0 :=
  ⟨(claim6_normalization_invariant ["a", "b"] (fun _ => 2) (fun _ => 0)).1
      (by norm_num [rawScores]),
    (claim6_normalization_invariant ["a", "b"] (fun _ => 2) (fun _ => 0)).2.2.2
      (by
        intro p hp
        simp [rawScores] at hp
        rcases hp with rfl | rfl <;> rfl)⟩

/-- C3 counterexample: seven taxonomy entries with identical profiles
give both scorers uniform raw vectors (keyword 2, structural 4), so
both accept the first domain "d1" (confidence 1/7 passes both scorer
floors) and the hybrid arbitrator returns "d1"; but the 0.6/0.4
weighted combiner blends to 1/7 < 0.15 for every domain and returns
"unsure".  The two disagree, refuting the claimed equivalence. -/
theorem claim3_counterexample :
    (hybridClassifyPipeline ["d1", "d2", "d3", "d4", "d5", "d6", "d7"]
        (fun _ => 2) (fun _ => 4) none
        ["d1", "d2", "d3", "d4", "d5", "d6", "d7"] initStats).finalDomain
      = "d1"
    ∧ emailClassifierClassify ["d1", "d2", "d3", "d4", "d5", "d6", "d7"]
        (fun _ => 2) (fun _ => 4)
        ["d1", "d2", "d3", "d4", "d5", "d6", "d7"] = "unsure" := by
  constructor <;>
    simp [hybridClassifyPipeline, hybridClassify, classifiersAgree,
      hybridEscalate, fallbackClassification, emailClassifierClassify,
      emailClassifierCombine, keywordClassify, structuralClassify,
      classifyFromScores, rawScores, normalizeScores, pyMax, pyMaxAux,
      getScore, List.lookup, initStats] <;>
    norm_num <;>
    simp [List.lookup] <;>
    norm_num

/-- C3 amended: with no semantic classifier configured, the hybrid
arbitrator's final label equals the default 0.6/0.4 weighted combiner's
label on every email where the two heuristic scorers do not agree; when
they agree the arbitrator returns the agreed domain directly, which can
differ from the combiner's label (the combiner returns "unsure"
whenever the agreed domain's blended score is below the 0.15
threshold). -/
theorem claim3_amended_fallback_consistency (domains : List String)
    (kwFn stFn : String → ℚ) (unionOrder : List String)
    (stats : HybridWorkflowStats)
    (hdis : classifiersAgree (keywordClassify domains kwFn)
      (structuralClassify domains stFn) = false) :
    (hybridClassifyPipeline domains kwFn stFn none unionOrder
        stats).finalDomain
      = emailClassifierClassify domains kwFn stFn unionOrder := by
  simp only [hybridClassifyPipeline, hybridClassify, hdis,
    Bool.false_eq_true, if_false, hybridEscalate, fallbackClassification,
    emailClassifierClassify, emailClassifierCombine]

/-- C3 amended witness: keyword says "a", structural abstains
(all-zero scores), so the scorers disagree and both pipelines coincide. -/
theorem claim3_amended_fallback_consistency_witness :
    (hybridClassifyPipeline ["a"] (fun _ => 2) (fun _ => 0) none ["a"]
        initStats).finalDomain
      = emailClassifierClassify ["a"] (fun _ => 2) (fun _ => 0) ["a"] :=
  claim3_amended_fallback_consistency ["a"] (fun _ => 2) (fun _ => 0) ["a"]
    initStats
    (by norm_num [classifiersAgree, keywordClassify, structuralClassify,
      classifyFromScores, rawScores, normalizeScores, pyMax, pyMaxAux,
      getScore, List.lookup])

/-- C4: the disclaimer component of `_score_template_match` as coded
gives ZERO when the profile expects no disclaimer but the email has one
(the `elif profile.has_disclaimer and features["has_disclaimer"]`
branch is unreachable: both-true is already covered by the equality
branch), so an email carrying a disclaimer scores 2.0 lower than the
identical email without one against such a profile — a present
disclaimer is penalized, contradicting the specified
"disclaimers are never penalized". -/
theorem claim4_disclaimer_penalized :
    scoreDisclaimer true false = 0
    ∧ scoreTemplateMatch
        ⟨500, true, true, true, 3, "semi-formal", true,
          ⟨false, false, "unknown"⟩⟩
        ⟨"technology", (100, 1000), true, true, false, true,
          "semi-formal", (1, 5)⟩ + 2
      = scoreTemplateMatch
        ⟨500, true, true, false, 3, "semi-formal", true,
          ⟨false, false, "unknown"⟩⟩
        ⟨"technology", (100, 1000), true, true, false, true,
          "semi-formal", (1, 5)⟩ := by
  constructor
  · norm_num [scoreDisclaimer]
  · simp [scoreTemplateMatch, scoreBodyLength, scoreGreeting,
      scoreSignature, scoreDisclaimer, scoreUrl, scoreFormality,
      scoreParagraphs, scoreSender]
    norm_num

/-- C7 counterexample: with a workflow logger attached whose very first
`log_step` call raises, `HybridClassifier.classify` aborts — yet
`total_processed` was already incremented at the top of the method
(line 888), so a counter HAS been changed for the aborted email. -/
theorem claim7_counterexample :
    (hybridClassifyE (fun _ => .error "disk full") none ["a"]
        ⟨some "a", 1, [("a", 1)], "keyword_taxonomy"⟩
        ⟨some "a", 1, [("a", 1)], "structural_template"⟩ initStats).1
      = Except.error "disk full"
    ∧ (hybridClassifyE (fun _ => .error "disk full") none ["a"]
        ⟨some "a", 1, [("a", 1)], "keyword_taxonomy"⟩
        ⟨some "a", 1, [("a", 1)], "structural_template"⟩
        initStats).2.total_processed
      = initStats.total_processed + 1 := by
  exact ⟨rfl, rfl⟩

/-- C7 amended: statistics updates are NOT committed together after the
decision: `total_processed` is incremented unconditionally at the start
of `classify`, so a call that aborts because the first workflow-logger
call raises leaves `total_processed` incremented by one for that email
while the remaining counters are unchanged. -/
theorem claim7_amended_eager_total_processed
    (logStep : ℕ → Except String Unit)
    (llm : Option (Except String (ClassificationResult × ℚ)))
    (unionOrder : List String) (r1 r2 : ClassificationResult)
    (stats : HybridWorkflowStats) (e : String)
    (h : logStep 0 = .error e) :
    hybridClassifyE logStep llm unionOrder r1 r2 stats =
      (.error e,
        { stats with total_processed := stats.total_processed + 1 }) := by
  simp only [hybridClassifyE, h]

/-- C7 amended witness. -/
theorem claim7_amended_eager_total_processed_witness :
    hybridClassifyE (fun _ => .error "io") none ["b"]
      ⟨none, 0, [("b", 0)], "keyword_taxonomy"⟩
      ⟨none, 0, [("b", 0)], "structural_template"⟩ initStats =
      (.error "io", ⟨0, 0, 0, 1⟩) :=
  claim7_amended_eager_total_processed (fun _ => .error "io") none ["b"]
    _ _ initStats "io" rfl

/-- C10 counterexample: with two domains tied in every score vector,
both scorers pick the taxonomy-first "alpha", but the weighted combiner
iterates the union SET of score keys (hash-ordered); when that order
enumerates "beta" first, the combiner returns "beta", not the
taxonomy-first tied domain — so the combiner's tie-break does not
follow taxonomy insertion order and depends on the set order as well. -/
theorem claim10_counterexample :
    (keywordClassify ["alpha", "beta"] (fun _ => 2)).domain = some "alpha"
    ∧ (structuralClassify ["alpha", "beta"] (fun _ => 4)).domain
      = some "alpha"
    ∧ emailClassifierClassify ["alpha", "beta"] (fun _ => 2) (fun _ => 4)
        ["beta", "alpha"] = "beta" := by
  refine ⟨?_, ?_, ?_⟩ <;>
    simp [keywordClassify, structuralClassify, emailClassifierClassify,
      emailClassifierCombine, classifyFromScores, rawScores,
      normalizeScores, pyMax, pyMaxAux, getScore, List.lookup] <;>
    norm_num <;>
    simp [List.lookup] <;>
    norm_num

/-- C10 amended: every argmax site is Python's max-by-key, which
deterministically selects the FIRST entry of its own iteration order
attaining the maximal score (earlier entries strictly smaller, later
ties lose): for the two scorers that order is taxonomy insertion order;
for the weighted combiner it is the iteration order of the union set of
score keys, which need not be taxonomy order. -/
theorem claim10_amended_first_of_iteration_order
    (l₁ l₂ : List (String × ℚ)) (d : String) (s : ℚ)
    (h₁ : ∀ p ∈ l₁, p.2 < s) (h₂ : ∀ p ∈ l₂, p.2 ≤ s)
    (mc mr : ℚ) (m : String)
    (r1 r2 : ClassificationResult) (o₁ o₂ : List String) (e0 : String)
    (g₁ : ∀ x ∈ o₁,
      getScore r1.scores x * 0.6 + getScore r2.scores x * 0.4
        < getScore r1.scores e0 * 0.6 + getScore r2.scores e0 * 0.4)
    (g₂ : ∀ x ∈ o₂,
      getScore r1.scores x * 0.6 + getScore r2.scores x * 0.4
        ≤ getScore r1.scores e0 * 0.6 + getScore r2.scores e0 * 0.4)
    (gthr : (0.15 : ℚ)
      ≤ getScore r1.scores e0 * 0.6 + getScore r2.scores e0 * 0.4) :
    ((classifyFromScores mc mr m (l₁ ++ (d, s) :: l₂)).domain = none
      ∨ (classifyFromScores mc mr m (l₁ ++ (d, s) :: l₂)).domain = some d)
    ∧ fallbackClassification (o₁ ++ e0 :: o₂) r1 r2 = e0
    ∧ emailClassifierCombine (o₁ ++ e0 :: o₂) r1 r2 = e0 := by
  have hpm := pyMax_first l₁ d s l₂ h₁ h₂
  have hsel : (classifyFromScores mc mr m (l₁ ++ (d, s) :: l₂)).domain = none
      ∨ (classifyFromScores mc mr m (l₁ ++ (d, s) :: l₂)).domain = some d := by
    unfold classifyFromScores
    rw [hpm]
    dsimp only
    split
    · exact Or.inl rfl
    · exact Or.inr rfl
  have hfall : fallbackClassification (o₁ ++ e0 :: o₂) r1 r2 = e0 := by
    have hmap : (o₁ ++ e0 :: o₂).map
        (fun x => (x, getScore r1.scores x * 0.6 + getScore r2.scores x * 0.4))
        = o₁.map (fun x =>
            (x, getScore r1.scores x * 0.6 + getScore r2.scores x * 0.4))
          ++ (e0, getScore r1.scores e0 * 0.6 + getScore r2.scores e0 * 0.4)
            :: o₂.map (fun x =>
              (x, getScore r1.scores x * 0.6 + getScore r2.scores x * 0.4)) := by
      simp
    have hm₁ : ∀ p ∈ o₁.map (fun x =>
        (x, getScore r1.scores x * 0.6 + getScore r2.scores x * 0.4)),
        p.2 < getScore r1.scores e0 * 0.6 + getScore r2.scores e0 * 0.4 := by
      intro p hp
      rcases List.mem_map.mp hp with ⟨x, hx, rfl⟩
      exact g₁ x hx
    have hm₂ : ∀ p ∈ o₂.map (fun x =>
        (x, getScore r1.scores x * 0.6 + getScore r2.scores x * 0.4)),
        p.2 ≤ getScore r1.scores e0 * 0.6 + getScore r2.scores e0 * 0.4 := by
      intro p hp
      rcases List.mem_map.mp hp with ⟨x, hx, rfl⟩
      exact g₂ x hx
    have hpm2 := pyMax_first _ e0
      (getScore r1.scores e0 * 0.6 + getScore r2.scores e0 * 0.4) _ hm₁ hm₂
    unfold fallbackClassification
    rw [hmap]
    dsimp only
    rw [hpm2]
    dsimp only
    rw [if_pos gthr]
  exact ⟨hsel, hfall, hfall⟩

/-- C10 amended witness: the scorer site picks "b" over a later tied
"c"; a fallback/combiner union order that lists a tied "y" before "x"
makes the combiners pick "y". -/
theorem claim10_amended_first_of_iteration_order_witness :
    ((classifyFromScores 0.05 1.5 "keyword_taxonomy"
        ([("a", 1)] ++ ("b", 3) :: [("c", 3)])).domain = none
      ∨ (classifyFromScores 0.05 1.5 "keyword_taxonomy"
        ([("a", 1)] ++ ("b", 3) :: [("c", 3)])).domain = some "b")
    ∧ fallbackClassification ([] ++ "y" :: ["x"])
        ⟨some "x", 1, [("x", 1), ("y", 1)], "keyword_taxonomy"⟩
        ⟨some "y", 1, [("x", 1), ("y", 1)], "structural_template"⟩ = "y"
    ∧ emailClassifierCombine ([] ++ "y" :: ["x"])
        ⟨some "x", 1, [("x", 1), ("y", 1)], "keyword_taxonomy"⟩
        ⟨some "y", 1, [("x", 1), ("y", 1)], "structural_template"⟩ = "y" :=
  claim10_amended_first_of_iteration_order [("a", 1)] [("c", 3)] "b" 3
    (by
      intro p hp
      simp at hp
      subst hp
      norm_num)
    (by
      intro p hp
      simp at hp
      subst hp
      norm_num)
    0.05 1.5 "keyword_taxonomy" _ _ [] ["x"] "y"
    (by simp)
    (by
      intro x hx
      simp at hx
      subst hx
      simp [getScore, List.lookup])
    (by
      simp [getScore, List.lookup]
      norm_num)

namespace LLM

theorem mem_insertByConf (c x : DomainClassification)
    (l : List DomainClassification) :
    x ∈ insertByConf c l ↔ x = c ∨ x ∈ l := by
  induction l with
  | nil => simp [insertByConf]
  | cons y ys ih =>
    simp only [insertByConf]
    split <;> simp only [List.mem_cons, ih] <;> try tauto

theorem mem_sortFold (l acc : List DomainClassification)
    (x : DomainClassification) :
    x ∈ l.foldl (fun acc c => insertByConf c acc) acc
      ↔ x ∈ acc ∨ x ∈ l := by
  induction l generalizing acc with
  | nil => simp
  | cons c cs ih =>
    simp only [List.foldl_cons, ih, mem_insertByConf, List.mem_cons]
    tauto

theorem mem_sortByConfDesc (l : List DomainClassification)
    (x : DomainClassification) : x ∈ sortByConfDesc l ↔ x ∈ l := by
  simp [sortByConfDesc, mem_sortFold]

theorem sortByConfDesc_ne_nil {l : List DomainClassification}
    (h : l ≠ []) : sortByConfDesc l ≠ [] := by
  cases l with
  | nil => exact absurd rfl h
  | cons c cs =>
    intro hs
    have hc : c ∈ sortByConfDesc (c :: cs) :=
      (mem_sortByConfDesc _ _).mpr (List.mem_cons_self _ _)
    rw [hs] at hc
    exact absurd hc (List.not_mem_nil c)

theorem filterValid_mem {kd : List String} {cls : List DomainClassification}
    {c : DomainClassification} (h : c ∈ filterValid kd cls) :
    c.domain ∈ validDomains kd := by
  rcases List.mem_filterMap.mp h with ⟨a, _, hfa⟩
  dsimp only at hfa
  split at hfa
  · next hcon =>
    cases hfa
    exact List.mem_of_elem_eq_true hcon
  · exact absurd hfa (by simp)

theorem validateResult_classifications (kd : List String) (r : LLMResult) :
    (validateResult kd r).classifications
      = sortByConfDesc
        (if (filterValid kd r.classifications).isEmpty then [syntheticUnsure]
         else filterValid kd r.classifications) := rfl

/-- C8: `_validate_result` keeps only classifications whose normalized
domain name lies in the classifier's valid-domain set (the taxonomy's
names plus "unsure"); when the filter leaves nothing it substitutes the
synthetic "unsure" classification with confidence 0.3 instead of
raising; the validated result always contains at least one
classification. -/
theorem claim8_validate_result_filtered_nonempty (kd : List String)
    (r : LLMResult) :
    (∀ c ∈ (validateResult kd r).classifications,
      c.domain ∈ validDomains kd)
    ∧ (validateResult kd r).classifications ≠ []
    ∧ (filterValid kd r.classifications = [] →
        (validateResult kd r).classifications = [syntheticUnsure]) := by
  refine ⟨?_, ?_, ?_⟩
  · intro c hc
    rw [validateResult_classifications, mem_sortByConfDesc] at hc
    split at hc
    · rw [List.mem_singleton] at hc
      subst hc
      simp [syntheticUnsure, validDomains]
    · exact filterValid_mem hc
  · rw [validateResult_classifications]
    apply sortByConfDesc_ne_nil
    split
    · simp
    · next he =>
      intro hnil
      rw [hnil] at he
      exact he rfl
  · intro h
    rw [validateResult_classifications, h]
    rfl

/-- C8 witness: on a concrete semantic result the validated
classification list is non-empty. -/
theorem claim8_validate_result_filtered_nonempty_witness :
    (validateResult ["finance"]
        ⟨[⟨"weird", 0.5, "y"⟩], "weird", "a"⟩).classifications ≠ [] :=
  (claim8_validate_result_filtered_nonempty ["finance"]
    ⟨[⟨"weird", 0.5, "y"⟩], "weird", "a"⟩).2.1

/-- C9: `LLMClassifier.classify` is a total function of the attempt
outcomes — when every `structured_llm.invoke` attempt raises (so
`_invoke_llm` exhausts its retries and re-raises), the caller still
receives the fallback `ClassificationResult`: null domain, confidence
0, all-zero scores over the known domains, method "llm_agent" — never
an exception. -/
theorem claim9_classify_never_raises (kd : List String) (rc : ℕ)
    (attempt : ℕ → Except String LLMResult)
    (h : ∀ i, ∃ e, attempt i = Except.error e) :
    llmClassify kd rc attempt = createFallbackResult kd
    ∧ createFallbackResult kd
      = ⟨none, 0, kd.map (fun d => (d, 0)), "llm_agent"⟩ := by
  refine ⟨?_, rfl⟩
  have herr : ∃ e, invokeLLM kd rc attempt = .error e := by
    induction rc generalizing attempt with
    | zero =>
      rcases h 0 with ⟨e, he⟩
      exact ⟨e, by simp [invokeLLM, he]⟩
    | succ n ih =>
      rcases h 0 with ⟨e, he⟩
      rcases ih (fun i => attempt (i + 1)) (fun i => h (i + 1)) with ⟨e', he'⟩
      exact ⟨e', by simp [invokeLLM, he, he']⟩
  rcases herr with ⟨e, he⟩
  simp [llmClassify, he]

/-- C9 witness: three attempts, all raising. -/
theorem claim9_classify_never_raises_witness :
    llmClassify ["finance", "technology"] 2 (fun _ => Except.error "boom")
      = createFallbackResult ["finance", "technology"] :=
  (claim9_classify_never_raises ["finance", "technology"] 2
    (fun _ => Except.error "boom") (fun _ => ⟨"boom", rfl⟩)).1

end LLM

end EmailClassifier
